import Mathlib

/-!
Shallow embedding of the HubSpot dynamic-form component
(`src/components/hubspot-form.tsx`): the schema translator
`convertHubspotFormToConfig`, the validation-schema builder
`generateZodSchema` (including the runtime behaviour of the zod method
calls it performs), the submission-payload construction in `onSubmit`,
and the fetch/submit error-handling of the form controller.

JavaScript runtime facts that the component relies on (string/number
coercion, `new URL`, zod's string checks) are modelled as executable
Lean functions; each such model carries a comment stating exactly what
it models and which simplifications were made.
-/

/-! ### Character-level helpers (models of JS string primitives) -/

/-- ASCII lower-casing of one character.  Models `String.prototype.toLowerCase`
restricted to ASCII (the field names and scheme names involved are ASCII). -/
def toLowerChar (c : Char) : Char :=
  if 'A' ≤ c ∧ c ≤ 'Z' then Char.ofNat (c.toNat + 32) else c

/-- Boolean prefix test on character lists. -/
def isPrefixB : List Char → List Char → Bool
  | [], _ => true
  | _ :: _, [] => false
  | a :: as, b :: bs => a = b && isPrefixB as bs

/-- Does `pat` occur as a contiguous subsequence of `l`?
Models `String.prototype.includes`. -/
def containsSeq (pat : List Char) : List Char → Bool
  | [] => isPrefixB pat []
  | b :: bs => isPrefixB pat (b :: bs) || containsSeq pat bs

/-- `name.toLowerCase().includes("email")` from the translator's default
branch. -/
def nameContainsEmailCI (name : String) : Bool :=
  containsSeq "email".data (name.data.map toLowerChar)

/-- Split a character list at every occurrence of `c` (the separators are
dropped).  Counterpart of `String.prototype.split` with a one-character
separator. -/
def splitOnChar (c : Char) : List Char → List (List Char)
  | [] => [[]]
  | x :: xs =>
    match splitOnChar c xs with
    | [] => if x = c then [[], []] else [[x]]
    | h :: t => if x = c then [] :: h :: t else (x :: h) :: t

/-- Split at the first colon: returns `(before, after)` when a colon exists. -/
def splitAtColon : List Char → Option (List Char × List Char)
  | [] => none
  | c :: tl =>
    if c = ':' then some ([], tl)
    else (splitAtColon tl).map (fun p => (c :: p.1, p.2))

/-- Does the list contain two consecutive dots? -/
def hasDoubleDot : List Char → Bool
  | [] => false
  | [_] => false
  | a :: b :: tl => (a = '.' && b = '.') || hasDoubleDot (b :: tl)

/-! ### Model of zod's email check -/

/-- Characters allowed in the local part of an address by zod's email
regular expression (case-insensitive `[A-Z0-9_'+\-.]`). -/
def emailLocalChar (c : Char) : Bool :=
  c.isAlpha || c.isDigit || c = '_' || c = Char.ofNat 39 || c = '+' ||
    c = '-' || c = '.'

/-- Characters allowed as the final local-part character (no dot, no
apostrophe): case-insensitive `[A-Z0-9_+-]`. -/
def emailLocalLastChar (c : Char) : Bool :=
  c.isAlpha || c.isDigit || c = '_' || c = '+' || c = '-'

/-- Domain part: `([A-Z0-9][A-Z0-9-]*\.)+[A-Z]{2,}`, case-insensitively. -/
def emailDomainOk (l : List Char) : Bool :=
  match splitOnChar '.' l with
  | [] => false
  | labels =>
    decide (labels.length ≥ 2) &&
    (labels.dropLast.all fun lab =>
      match lab with
      | [] => false
      | c :: rest =>
        (c.isAlpha || c.isDigit) &&
          rest.all (fun d => d.isAlpha || d.isDigit || d = '-')) &&
    (match labels.getLast? with
     | some lastLab => decide (lastLab.length ≥ 2) && lastLab.all Char.isAlpha
     | none => false)

/-- Model of `z.string().email()`: zod's email regular expression
`^(?!\.)(?!.*\.\.)([A-Z0-9_'+\-\.]*)[A-Z0-9_+-]@([A-Z0-9][A-Z0-9\-]*\.)+[A-Z]{2,}$`
(case-insensitive), expressed structurally: exactly one `@`; the local part
is nonempty, uses the allowed characters, does not start with a dot and ends
in a no-dot character; no `..` occurs anywhere; the domain is a dot-separated
label sequence ending in an alphabetic top-level label of length ≥ 2. -/
def zodEmailCheck (s : String) : Bool :=
  match splitOnChar '@' s.data with
  | [localPart, domainPart] =>
    (match localPart with
     | [] => false
     | c :: _ => decide (c ≠ '.')) &&
    !hasDoubleDot s.data &&
    localPart.all emailLocalChar &&
    (match localPart.getLast? with
     | some c => emailLocalLastChar c
     | none => false) &&
    emailDomainOk domainPart
  | _ => false

/-! ### Model of the WHATWG URL constructor -/

/-- Characters allowed after the first character of a URL scheme. -/
def schemeCharOk (c : Char) : Bool :=
  c.isAlpha || c.isDigit || c = '+' || c = '-' || c = '.'

/-- Special schemes for which the WHATWG parser requires a nonempty host. -/
def specialSchemeNeedsHost (l : List Char) : Bool :=
  l = "http".data || l = "https".data || l = "ws".data ||
    l = "wss".data || l = "ftp".data

/-- Model of whether `new URL(s)` succeeds (with no base): the string must
have a valid scheme (alphabetic first character, then scheme characters)
followed by `:`; for the special schemes http/https/ws/wss/ftp the remainder,
after leading slashes, must contain a nonempty, whitespace-free host.
Simplification: detailed host/IP-literal validation and percent-encoding
rules of the WHATWG parser are not modelled; the inputs used by the theorems
below are far from those corner cases. -/
def jsValidURL (s : String) : Bool :=
  match splitAtColon s.data with
  | none => false
  | some (scheme, rest) =>
    match scheme with
    | [] => false
    | c :: tl =>
      c.isAlpha && tl.all schemeCharOk &&
      (if specialSchemeNeedsHost (scheme.map toLowerChar) then
        (let afterSlashes := rest.dropWhile (fun d => d = '/' || d = '\\')
         let host := afterSlashes.takeWhile
           (fun d => d ≠ '/' && d ≠ '\\' && d ≠ '?' && d ≠ '#')
         !host.isEmpty && host.all (fun d => d ≠ ' '))
      else true)

/-! ### Model of JS `Number(string)` NaN-ness -/

/-- ASCII whitespace trimmed by `Number` / `String.prototype.trim`
(Unicode space classes are not modelled). -/
def isJsWhitespace (c : Char) : Bool :=
  c = ' ' || c = '\t' || c = '\n' || c = '\r' ||
    c = Char.ofNat 11 || c = Char.ofNat 12

/-- Trim JS whitespace from both ends. -/
def trimChars (l : List Char) : List Char :=
  ((l.dropWhile isJsWhitespace).reverse.dropWhile isJsWhitespace).reverse

/-- Hexadecimal digit. -/
def isHexDigitChar (c : Char) : Bool :=
  c.isDigit || ('a' ≤ c && c ≤ 'f') || ('A' ≤ c && c ≤ 'F')

/-- Optional decimal exponent suffix `((e|E)(+|-)?digits)?`. -/
def expSuffixOk : List Char → Bool
  | [] => true
  | c :: tl =>
    (c = 'e' || c = 'E') &&
    (let body := match tl with
       | s :: r => if s = '+' || s = '-' then r else s :: r
       | [] => []
     !body.isEmpty && body.all Char.isDigit)

/-- Unsigned decimal literal `digits [. digits] | . digits`, with optional
exponent. -/
def decimalLiteralOk (l : List Char) : Bool :=
  let ds := l.takeWhile Char.isDigit
  let r1 := l.dropWhile Char.isDigit
  match r1 with
  | '.' :: tl =>
    let ds2 := tl.takeWhile Char.isDigit
    (!ds.isEmpty || !ds2.isEmpty) && expSuffixOk (tl.dropWhile Char.isDigit)
  | _ => !ds.isEmpty && expSuffixOk r1

/-- Models `!isNaN(Number(s))` for a string `s`: the empty / all-whitespace
string converts to 0; otherwise an optionally signed `Infinity` or decimal
literal, or an unsigned `0x`/`0o`/`0b` radix literal. -/
def jsStringIsNumeric (s : String) : Bool :=
  match trimChars s.data with
  | [] => true
  | c :: tl =>
    if c = '+' || c = '-' then
      tl = "Infinity".data || decimalLiteralOk tl
    else
      (c :: tl) = "Infinity".data ||
      (match c :: tl with
       | '0' :: x :: rest =>
         if x = 'x' || x = 'X' then !rest.isEmpty && rest.all isHexDigitChar
         else if x = 'o' || x = 'O' then
           !rest.isEmpty && rest.all (fun d => '0' ≤ d && d ≤ '7')
         else if x = 'b' || x = 'B' then
           !rest.isEmpty && rest.all (fun d => d = '0' || d = '1')
         else decimalLiteralOk (c :: tl)
       | _ => decimalLiteralOk (c :: tl))

/-- Models `Number(s) == 0` for a numeric string `s` (used only for JS
falsiness of transformed number values): empty string, or every mantissa
digit is `0`. -/
def jsStringIsZero (s : String) : Bool :=
  jsStringIsNumeric s &&
  (match trimChars s.data with
   | [] => true
   | c :: tl =>
     let core := if c = '+' || c = '-' then tl else c :: tl
     if core = "Infinity".data then false
     else
       (core.takeWhile (fun d => d ≠ 'e' && d ≠ 'E')).all
         (fun d => d = '0' || d = '.' || d = 'x' || d = 'X' || d = 'o' ||
           d = 'O' || d = 'b' || d = 'B'))

/-! ### Data model (`src/components/hubspot-form.tsx`, interfaces) -/

/-- One `{label, value}` option of a select / multi-checkbox field. -/
structure FieldOption where
  label : String
  value : String
deriving DecidableEq, Repr

/-- The internal field type union
`"text" | "email" | "select" | "multiselect" | "number" | "multi_line_text"`. -/
inductive FieldType
  | text | email | select | multiselect | number | multi_line_text
deriving DecidableEq, Repr

/-- The string written into `fieldTypes` for a non-multiselect field
(`fieldTypes[field.name] = field.type`). -/
def FieldType.toTag : FieldType → String
  | .text => "text"
  | .email => "email"
  | .select => "select"
  | .multiselect => "multiselect"
  | .number => "number"
  | .multi_line_text => "multi_line_text"

/-- The `validation` sub-object of `FormFieldConfig` (declared in the source
but never read by `generateZodSchema`). -/
structure FieldValidation where
  min : Option Int := none
  max : Option Int := none
  pattern : Option String := none
  message : Option String := none
deriving DecidableEq, Repr

/-- Interface `FormFieldConfig`: one internal field configuration. -/
structure FormFieldConfig where
  name : String
  label : String
  type : FieldType
  placeholder : Option String := none
  description : Option String := none
  required : Option Bool := none
  validation : Option FieldValidation := none
  options : Option (List FieldOption) := none
deriving DecidableEq, Repr

/-- Interface `FormConfig`. -/
structure FormConfig where
  name : String
  fields : List FormFieldConfig
deriving DecidableEq, Repr

/-- Interface `HubspotField`: one external field definition. -/
structure HubspotField where
  name : String
  label : String
  fieldType : String
  required : Bool
  description : Option String := none
  placeholder : Option String := none
  options : Option (List FieldOption) := none
deriving DecidableEq, Repr

/-- Interface `HubspotFieldGroup`. -/
structure HubspotFieldGroup where
  fields : List HubspotField
deriving DecidableEq, Repr

/-- Interface `HubspotFormData`. -/
structure HubspotFormData where
  name : String
  fieldGroups : List HubspotFieldGroup
deriving DecidableEq, Repr

/-! ### Schema Translator (`convertHubspotFormToConfig`) -/

/-- Body of the inner `forEach` of `convertHubspotFormToConfig`: build the
default field configuration, then the `switch (field.fieldType)` that
overrides `type` (and `options` for dropdown / multiple_checkboxes), with
the name-based email fallback in the default branch. -/
def convertHubspotField (field : HubspotField) : FormFieldConfig :=
  let base : FormFieldConfig :=
    { name := field.name
      label := field.label
      type := .text
      required := some field.required
      description := field.description
      placeholder := field.placeholder }
  if field.fieldType = "email" then { base with type := .email }
  else if field.fieldType = "dropdown" then
    { base with
      type := .select
      options := field.options.map
        (List.map fun opt => { label := opt.label, value := opt.value }) }
  else if field.fieldType = "multiple_checkboxes" then
    { base with
      type := .multiselect
      options := field.options.map
        (List.map fun opt => { label := opt.label, value := opt.value }) }
  else if field.fieldType = "number" then { base with type := .number }
  else if field.fieldType = "multi_line_text" then { base with type := .text }
  else if nameContainsEmailCI field.name then { base with type := .email }
  else { base with type := .text }

/-- `convertHubspotFormToConfig`: flatten the field groups, pushing each
converted field in traversal order. -/
def convertHubspotFormToConfig (hubspotForm : HubspotFormData) : FormConfig :=
  let fields : List FormFieldConfig :=
    hubspotForm.fieldGroups.foldl
      (fun acc group =>
        group.fields.foldl (fun acc2 f => acc2 ++ [convertHubspotField f]) acc)
      []
  { name := hubspotForm.name, fields := fields }

/-! ### Zod schema objects built by `generateZodSchema`

The schema value a field ends up with is one of finitely many object
shapes; we embed them as an inductive.  The TypeScript casts
`(fieldSchema as z.ZodString)` have no runtime effect: each `.min` /
`.email` call dispatches on the actual object, and throws a `TypeError`
when the object lacks the method.  Those calls are therefore embedded as
`Except`-valued functions. -/

/-- Checks attached to a `z.string()` schema. -/
inductive StringCheck
  | min1
  | email
deriving DecidableEq, Repr

/-- The zod schema objects reachable in `generateZodSchema`. -/
inductive ZodSchema
  | string (checks : List StringCheck)
  | array (minLength : Option Nat)
  | numberTransform
  | optional (inner : ZodSchema)
  | refineNumber (inner : ZodSchema)
  | refineUrl (inner : ZodSchema)
deriving DecidableEq, Repr

/-- Runtime effect of `fieldSchema.min(1, {message})`:
`ZodString.min` adds a minimum-length check, `ZodArray.min` sets the
minimum array length; `ZodEffects` (transform / refine) and `ZodOptional`
have no `min` method, so the call throws a `TypeError`. -/
def zodMin1 : ZodSchema → Except String ZodSchema
  | .string checks => .ok (.string (checks ++ [.min1]))
  | .array _ => .ok (.array (some 1))
  | _ => .error "fieldSchema.min is not a function"

/-- Runtime effect of `fieldSchema.email({message})`: only `ZodString`
has an `email` method; `ZodOptional`, `ZodArray` and `ZodEffects` throw a
`TypeError`. -/
def zodEmail : ZodSchema → Except String ZodSchema
  | .string checks => .ok (.string (checks ++ [.email]))
  | _ => .error "fieldSchema.email is not a function"

/-- Per-field body of `generateZodSchema`'s `forEach`: the base schema
from the `switch (field.type)`, then the required/optional step, then the
email re-check, then the number refinement, then the website URL
refinement.  `if (field.required)` is JS truthiness of the optional
boolean. -/
def buildFieldSchema (field : FormFieldConfig) : Except String ZodSchema :=
  let base : ZodSchema :=
    match field.type with
    | .multiselect => .array none
    | .email => .string [.email]
    | .number => .numberTransform
    | .multi_line_text => .string [.min1]
    | _ => .string []
  let step1 : Except String ZodSchema :=
    if field.required = some true then zodMin1 base else .ok (.optional base)
  let step2 : Except String ZodSchema :=
    match step1 with
    | .error e => .error e
    | .ok s => if field.type = .email then zodEmail s else .ok s
  match step2 with
  | .error e => .error e
  | .ok s =>
    let s3 := if field.type = .number then ZodSchema.refineNumber s else s
    let s4 := if field.name = "website" then ZodSchema.refineUrl s3 else s3
    .ok s4

/-- The `forEach` of `generateZodSchema`: build each field's schema in
order and record the assignment `schema[field.name] = fieldSchema`; the
first throwing field aborts the whole construction. -/
def buildSchemas : List FormFieldConfig → Except String (List (String × ZodSchema))
  | [] => .ok []
  | f :: rest =>
    match buildFieldSchema f with
    | .error e => .error e
    | .ok s =>
      match buildSchemas rest with
      | .error e => .error e
      | .ok tl => .ok ((f.name, s) :: tl)

/-- `generateZodSchema(config)`: the shape handed to `z.object`, as the
sequence of record assignments (or the thrown `TypeError`). -/
def generateZodSchema (config : FormConfig) : Except String (List (String × ZodSchema)) :=
  buildSchemas config.fields

/-- Look a key up in an assignment sequence; a later assignment to the
same key wins, as in a JS record. -/
def recordGet : List (String × ZodSchema) → String → Option ZodSchema
  | [], _ => none
  | (n, s) :: tl, key =>
    match recordGet tl key with
    | some s2 => some s2
    | none => if n = key then some s else none

/-! ### Parse semantics of the built schemas -/

/-- The JS values flowing through validation: `undefined`, a string, the
output of the number transform (carrying the original source string), or
an array of strings. -/
inductive JSValue
  | undef
  | str (s : String)
  | num (orig : String)
  | arr (l : List String)
deriving DecidableEq, Repr

/-- One `ZodString` check. -/
def stringCheckOk : StringCheck → String → Bool
  | .min1, s => decide (s.length ≥ 1)
  | .email, s => zodEmailCheck s

/-- Models `!isNaN(Number(v))` on a runtime value: `Number(undefined)` is
NaN; strings parse per `jsStringIsNumeric`; transformed numbers are never
NaN; `Number` of an array converts `[]` to 0, a one-element array via its
element, and longer arrays to NaN. -/
def jsIsNumericValue : JSValue → Bool
  | .undef => false
  | .str s => jsStringIsNumeric s
  | .num _ => true
  | .arr [] => true
  | .arr [x] => jsStringIsNumeric x
  | .arr (_ :: _ :: _) => false

/-- JS falsiness of a runtime value (`!val`): `undefined`, the empty
string and `0` are falsy; every array is truthy. -/
def jsFalsy : JSValue → Bool
  | .undef => true
  | .str s => s = ""
  | .num orig => jsStringIsZero orig
  | .arr _ => false

/-- `String(v)` as fed to `new URL(v)`.  Simplification: a transformed
number prints as its original source string (they agree on canonically
written numbers, the only place this value is reachable). -/
def jsToString : JSValue → String
  | .undef => "undefined"
  | .str s => s
  | .num orig => orig
  | .arr l => String.intercalate "," l

/-- The website refinement callback:
`(val) => { if (!val) return true; try { new URL(val); return true } catch { return false } }`. -/
def urlRefineOk (v : JSValue) : Bool :=
  jsFalsy v || jsValidURL (jsToString v)

/-- Parse semantics of the built zod schemas: `some v` is a successful
parse with output value `v`, `none` a validation failure.  `z.string()`
and `z.array(z.string())` reject values of the wrong runtime type
(including `undefined`); `optional` short-circuits on `undefined`; the
number transform keeps the string when `Number` yields NaN; refinements
run on the successfully parsed inner value. -/
def zparse : ZodSchema → JSValue → Option JSValue
  | .string checks, .str s =>
    if checks.all (fun c => stringCheckOk c s) then some (.str s) else none
  | .string _, _ => none
  | .array minLength, .arr l =>
    (match minLength with
     | some m => if l.length < m then none else some (.arr l)
     | none => some (.arr l))
  | .array _, _ => none
  | .numberTransform, .str s =>
    some (if jsStringIsNumeric s then .num s else .str s)
  | .numberTransform, _ => none
  | .optional _, .undef => some .undef
  | .optional inner, v => zparse inner v
  | .refineNumber inner, v =>
    (zparse inner v).bind fun o => if jsIsNumericValue o then some o else none
  | .refineUrl inner, v =>
    (zparse inner v).bind fun o => if urlRefineOk o then some o else none

/-! ### Submission payload construction (`onSubmit`, lines 321–342) -/

/-- A form value: `string | string[]`. -/
inductive FieldValue
  | str (s : String)
  | list (l : List String)
deriving DecidableEq, Repr

/-- `Array.isArray(value) ? value : [value]`. -/
def coerceToArray : FieldValue → List String
  | .list l => l
  | .str s => [s]

/-- Body of the `forEach` over `formConfig.fields` in `onSubmit`: skip a
field whose value is `undefined`; a multiselect field's value is coerced
to an array and tagged `multiple_checkboxes`; every other field copies
the value and records `field.type` verbatim.  The accumulator pairs the
`hubspotFields` and `fieldTypes` assignment sequences. -/
def submissionStep (values : String → Option FieldValue)
    (acc : List (String × FieldValue) × List (String × String))
    (f : FormFieldConfig) :
    List (String × FieldValue) × List (String × String) :=
  match values f.name with
  | none => acc
  | some v =>
    if f.type = .multiselect then
      (acc.1 ++ [(f.name, .list (coerceToArray v))],
       acc.2 ++ [(f.name, "multiple_checkboxes")])
    else
      (acc.1 ++ [(f.name, v)], acc.2 ++ [(f.name, f.type.toTag)])

/-- The `forEach` over `formConfig.fields` in `onSubmit`, building the
`hubspotFields` and `fieldTypes` records of the Submission Payload. -/
def buildSubmission (fields : List FormFieldConfig)
    (values : String → Option FieldValue) :
    List (String × FieldValue) × List (String × String) :=
  fields.foldl (submissionStep values) ([], [])

/-- Restatement of the Submission Relay contract in the spec's words:
the payload contains exactly the fields whose value is present, in field
order; multiselect values are wrapped into arrays. -/
def specSubmissionFields (fields : List FormFieldConfig)
    (values : String → Option FieldValue) : List (String × FieldValue) :=
  fields.filterMap fun f =>
    (values f.name).map fun v =>
      (f.name, if f.type = .multiselect then FieldValue.list (coerceToArray v) else v)

/-- Restatement of the Submission Relay contract for the type tags: the
external tag `multiple_checkboxes` for multiselect fields, the declared
type verbatim otherwise. -/
def specSubmissionTypes (fields : List FormFieldConfig)
    (values : String → Option FieldValue) : List (String × String) :=
  fields.filterMap fun f =>
    (values f.name).map fun _ =>
      (f.name, if f.type = .multiselect then "multiple_checkboxes" else f.type.toTag)

/-! ### Form controller: fetch and submit outcome handling -/

/-- The `data` object of a Submission Result. -/
structure SubmissionData where
  status : String
  inlineMessage : Option String := none
  redirectUrl : Option String := none
  correlationId : Option String := none
deriving DecidableEq, Repr

/-- Result of the submit collaborator (`submitHubspotForm`). -/
structure SubmissionResult where
  success : Bool
  data : Option SubmissionData := none
  error : Option String := none
deriving DecidableEq, Repr

/-- Result of the fetch collaborator (`getHubspotForm`). -/
structure FetchResult where
  success : Bool
  data : Option HubspotFormData := none
  error : Option String := none
deriving DecidableEq, Repr

/-- A thrown JS value: an `Error` instance carrying its `message`, or any
non-`Error` value (which carries no message). -/
inductive ThrownValue
  | errorObj (message : String)
  | nonError
deriving DecidableEq, Repr

/-- `v || fallback` for an optional string: absent and empty strings are
falsy. -/
def jsOrString (v : Option String) (fallback : String) : String :=
  match v with
  | some s => if s = "" then fallback else s
  | none => fallback

/-- `err instanceof Error ? err.message : fallback`. -/
def thrownMessage : ThrownValue → String → String
  | .errorObj m, _ => m
  | .nonError, fallback => fallback

/-- How the fetch collaborator's call can settle. -/
inductive FetchOutcome
  | resolved (r : FetchResult)
  | threw (v : ThrownValue)
deriving DecidableEq, Repr

/-- How the submit collaborator's call can settle. -/
inductive SubmitOutcome
  | resolved (r : SubmissionResult)
  | threw (v : ThrownValue)
deriving DecidableEq, Repr

/-- The `ready` sub-state: the stored configuration plus the submit
banner flags. -/
structure ReadySub where
  config : FormConfig
  submitSuccess : Bool := false
  submitError : Option String := none
deriving DecidableEq, Repr

/-- Controller states: `loading` until the fetch settles, then `ready`
with a configuration or `error` with a message. -/
inductive ControllerState
  | loading
  | ready (s : ReadySub)
  | error (message : String)
deriving DecidableEq, Repr

/-- `fetchForm`'s settlement handling (lines 272–304): success with data
runs the translator and enters `ready`; an unsuccessful result (or a
successful one without data) enters `error` with
`result.error || "Failed to fetch form"`; a thrown value enters `error`
with its message when it is an `Error`, else the fallback. -/
def handleFetchOutcome : FetchOutcome → ControllerState
  | .resolved r =>
    if r.success then
      match r.data with
      | some d => .ready { config := convertHubspotFormToConfig d }
      | none => .error (jsOrString r.error "Failed to fetch form")
    else .error (jsOrString r.error "Failed to fetch form")
  | .threw v => .error (thrownMessage v "Failed to fetch form")

/-- The observable effects of `onSubmit`'s settlement handling
(lines 352–381). -/
structure SubmitEffects where
  submitSuccess : Bool
  submitError : Option String
  response : SubmissionResult
  formReset : Bool
deriving DecidableEq, Repr

/-- `onSubmit`'s settlement handling: a resolved result is forwarded to
`onSubmissionResponse` verbatim; on success the form resets, on failure
the banner shows `result.error || "Failed to submit form"`; a thrown
value produces the banner message
`error instanceof Error ? error.message : "Failed to submit form"` and a
synthesised `{success:false, error}` response. -/
def handleSubmitOutcome : SubmitOutcome → SubmitEffects
  | .resolved r =>
    if r.success then
      { submitSuccess := true, submitError := none, response := r, formReset := true }
    else
      { submitSuccess := false
        submitError := some (jsOrString r.error "Failed to submit form")
        response := r
        formReset := false }
  | .threw v =>
    let msg := thrownMessage v "Failed to submit form"
    { submitSuccess := false
      submitError := some msg
      response := { success := false, error := some msg }
      formReset := false }

/-- The banner actually rendered: `{submitError && <div>{submitError}</div>}`
shows the message only when it is truthy (nonempty). -/
def bannerText (message : Option String) : Option String :=
  message.bind fun m => if m = "" then none else some m

/-- Events that can reach the controller after mount. -/
inductive ControllerEvent
  | fetchSettled (o : FetchOutcome)
  | submitSettled (o : SubmitOutcome)
deriving DecidableEq, Repr

/-- The controller's state transitions for one mount: the single fetch
settles out of `loading`; submit settlements update the banner flags
within `ready`; the `error` state renders a static message with no
interactive element and no retry path, so every event leaves it
unchanged. -/
def controllerStep : ControllerState → ControllerEvent → ControllerState
  | .loading, .fetchSettled o => handleFetchOutcome o
  | .loading, .submitSettled _ => .loading
  | .error m, _ => .error m
  | .ready s, .submitSettled o =>
    let e := handleSubmitOutcome o
    .ready { s with submitSuccess := e.submitSuccess, submitError := e.submitError }
  | .ready s, .fetchSettled _ => .ready s

/-! ### Restatements of specified policies (refinement claims only) -/

/-- Restatement, in the claim's words, of the type-assignment priority
policy of the Schema Translator: `email`, `dropdown`,
`multiple_checkboxes`, `number`, `multi_line_text` in order, then the
case-insensitive name-based email fallback, else `text`. -/
def specTypePolicy (field : HubspotField) : FieldType :=
  if field.fieldType = "email" then .email
  else if field.fieldType = "dropdown" then .select
  else if field.fieldType = "multiple_checkboxes" then .multiselect
  else if field.fieldType = "number" then .number
  else if field.fieldType = "multi_line_text" then .text
  else if nameContainsEmailCI field.name then .email
  else .text

/-- Restatement, in the claim's words, of the options policy: options are
carried through verbatim for `dropdown` and `multiple_checkboxes` fields
and absent otherwise. -/
def specOptionsPolicy (field : HubspotField) : Option (List FieldOption) :=
  if field.fieldType = "dropdown" then field.options
  else if field.fieldType = "multiple_checkboxes" then field.options
  else none

/-! ### Concrete sample inputs used by counterexamples and witnesses -/

/-- A required multiselect field. -/
def msReqField : FormFieldConfig :=
  { name := "colors", label := "Colors", type := .multiselect, required := some true }

/-- A configuration containing only a required multiselect field. -/
def msReqConfig : FormConfig := { name := "Contact", fields := [msReqField] }

/-- A non-required number field. -/
def numOptField : FormFieldConfig :=
  { name := "age", label := "Age", type := .number, required := some false }

/-- A configuration containing only a non-required number field. -/
def numOptConfig : FormConfig := { name := "Contact", fields := [numOptField] }

/-- A non-required text field (required flag absent). -/
def textOptField : FormFieldConfig :=
  { name := "firstname", label := "First name", type := .text }

/-- A configuration containing only a non-required text field. -/
def textOptConfig : FormConfig := { name := "Contact", fields := [textOptField] }

/-- A non-required email field. -/
def emailOptField : FormFieldConfig :=
  { name := "contact_email", label := "Email", type := .email, required := some false }

/-- A configuration containing only a non-required email field. -/
def emailOptConfig : FormConfig := { name := "Contact", fields := [emailOptField] }

/-- A required field named `website` whose declared type is `email`. -/
def websiteEmailField : FormFieldConfig :=
  { name := "website", label := "Website", type := .email, required := some true }

/-- A configuration containing only the email-typed `website` field. -/
def websiteEmailConfig : FormConfig :=
  { name := "Contact", fields := [websiteEmailField] }

/-- A required field named `website` of declared type `text`. -/
def websiteTextField : FormFieldConfig :=
  { name := "website", label := "Website", type := .text, required := some true }

/-- A configuration containing only the text-typed `website` field. -/
def websiteTextConfig : FormConfig :=
  { name := "Contact", fields := [websiteTextField] }

/-- An external field tagged `multi_line_text`. -/
def mltHubspotField : HubspotField :=
  { name := "message", label := "Message", fieldType := "multi_line_text",
    required := false }

/-- A form whose single group holds the `multi_line_text` field. -/
def mltHubspotForm : HubspotFormData :=
  { name := "Contact", fieldGroups := [{ fields := [mltHubspotField] }] }

/-! ### Helper lemmas -/

/-- Folding push-backs over a list appends its image. -/
theorem foldl_push_eq {α β : Type} (h : α → β) :
    ∀ (l : List α) (acc : List β),
      l.foldl (fun a x => a ++ [h x]) acc = acc ++ l.map h
  | [], acc => by simp
  | x :: xs, acc => by
    simp [foldl_push_eq h xs (acc ++ [h x])]

/-- The group-then-field fold of the translator flattens to a join of
per-group images. -/
theorem convert_groups_foldl :
    ∀ (groups : List HubspotFieldGroup) (acc : List FormFieldConfig),
      groups.foldl
        (fun acc2 group =>
          group.fields.foldl (fun a f => a ++ [convertHubspotField f]) acc2)
        acc
      = acc ++ (groups.map fun g => g.fields.map convertHubspotField).flatten
  | [], acc => by simp
  | g :: gs, acc => by
    rw [List.foldl_cons, foldl_push_eq convertHubspotField g.fields acc,
      convert_groups_foldl gs]
    simp

/-- The translator's field list is the in-order flattening of the
converted field groups. -/
theorem convert_fields_join (d : HubspotFormData) :
    (convertHubspotFormToConfig d).fields
      = (d.fieldGroups.map fun g => g.fields.map convertHubspotField).flatten := by
  have h := convert_groups_foldl d.fieldGroups []
  simpa [convertHubspotFormToConfig] using h

/-- The keys of a successfully built schema record are the field names in
order. -/
theorem buildSchemas_names :
    ∀ (fields : List FormFieldConfig) (sch : List (String × ZodSchema)),
      buildSchemas fields = .ok sch →
      sch.map Prod.fst = fields.map FormFieldConfig.name
  | [], sch, h => by
    simp only [buildSchemas] at h
    cases h
    rfl
  | f :: rest, sch, h => by
    simp only [buildSchemas] at h
    cases hb : buildFieldSchema f with
    | error e => rw [hb] at h; cases h
    | ok s =>
      rw [hb] at h
      cases ht : buildSchemas rest with
      | error e => rw [ht] at h; cases h
      | ok tl =>
        rw [ht] at h
        cases h
        simp [buildSchemas_names rest tl ht]

/-- A key that is not among the record's keys looks up to `none`. -/
theorem recordGet_eq_none_of_not_mem :
    ∀ (l : List (String × ZodSchema)) (key : String),
      key ∉ l.map Prod.fst → recordGet l key = none
  | [], _, _ => rfl
  | (n, s) :: tl, key, h => by
    rw [List.map_cons] at h
    have h1 : key ≠ n := fun hk => h (by simp [hk])
    have h2 : key ∉ tl.map Prod.fst := fun hk => h (by simp [hk])
    simp [recordGet, recordGet_eq_none_of_not_mem tl key h2]
    exact fun hn => h1 hn.symm

/-- Bridge from the whole-form schema record back to the per-field
builder: when field names are distinct and `generateZodSchema` succeeds,
each field's name looks up to exactly that field's schema. -/
theorem buildSchemas_mem_nodup :
    ∀ (fields : List FormFieldConfig) (sch : List (String × ZodSchema))
      (f : FormFieldConfig),
      (fields.map FormFieldConfig.name).Nodup →
      buildSchemas fields = .ok sch → f ∈ fields →
      ∃ s, buildFieldSchema f = .ok s ∧ recordGet sch f.name = some s
  | [], _, f, _, _, hf => absurd hf (List.not_mem_nil f)
  | g :: rest, sch, f, hnd, hok, hf => by
    rw [List.map_cons] at hnd
    simp only [buildSchemas] at hok
    cases hb : buildFieldSchema g with
    | error e => rw [hb] at hok; cases hok
    | ok s =>
      rw [hb] at hok
      cases ht : buildSchemas rest with
      | error e => rw [ht] at hok; cases hok
      | ok tl =>
        rw [ht] at hok
        cases hok
        rcases List.mem_cons.mp hf with rfl | hf2
        · refine ⟨s, hb, ?_⟩
          have hnames : tl.map Prod.fst = rest.map FormFieldConfig.name :=
            buildSchemas_names rest tl ht
          have hnm : f.name ∉ tl.map Prod.fst := by
            rw [hnames]
            exact (List.nodup_cons.mp hnd).1
          simp [recordGet, recordGet_eq_none_of_not_mem tl f.name hnm]
        · have hnd2 : (rest.map FormFieldConfig.name).Nodup :=
            (List.nodup_cons.mp hnd).2
          obtain ⟨s2, hb2, hg2⟩ := buildSchemas_mem_nodup rest tl f hnd2 ht hf2
          exact ⟨s2, hb2, by simp [recordGet, hg2]⟩

/-- If any field's schema construction throws, the whole construction
throws. -/
theorem buildSchemas_error_of_mem :
    ∀ (fields : List FormFieldConfig) (f : FormFieldConfig) (e : String),
      f ∈ fields → buildFieldSchema f = .error e →
      ∃ e2, buildSchemas fields = .error e2
  | [], f, _, hf, _ => absurd hf (List.not_mem_nil f)
  | g :: rest, f, e, hf, hb => by
    rcases List.mem_cons.mp hf with rfl | hf2
    · exact ⟨e, by simp [buildSchemas, hb]⟩
    · cases hg : buildFieldSchema g with
      | error e3 => exact ⟨e3, by simp [buildSchemas, hg]⟩
      | ok s =>
        obtain ⟨e2, ht⟩ := buildSchemas_error_of_mem rest f e hf2 hb
        exact ⟨e2, by simp [buildSchemas, hg, ht]⟩

/-- Required multiselect fields: the runtime `.min(1)` call lands on
`ZodArray.min` and sets a minimum length of 1. -/
theorem buildFieldSchema_ms_req (f : FormFieldConfig)
    (ht : f.type = .multiselect) (hr : f.required = some true) :
    buildFieldSchema f
      = .ok (if f.name = "website"
             then ZodSchema.refineUrl (.array (some 1))
             else .array (some 1)) := by
  by_cases hw : f.name = "website" <;>
    simp [buildFieldSchema, ht, hr, hw, zodMin1]

/-- Non-required multiselect fields become an optional string array. -/
theorem buildFieldSchema_ms_opt (f : FormFieldConfig)
    (ht : f.type = .multiselect) (hr : f.required ≠ some true) :
    buildFieldSchema f
      = .ok (if f.name = "website"
             then ZodSchema.refineUrl (.optional (.array none))
             else .optional (.array none)) := by
  by_cases hw : f.name = "website" <;>
    simp [buildFieldSchema, ht, hr, hw]

/-- Required default-branch (text / select) fields become a nonempty
string schema. -/
theorem buildFieldSchema_default_req (f : FormFieldConfig)
    (ht : f.type = .text ∨ f.type = .select) (hr : f.required = some true) :
    buildFieldSchema f
      = .ok (if f.name = "website"
             then ZodSchema.refineUrl (.string [.min1])
             else .string [.min1]) := by
  rcases ht with ht | ht <;> by_cases hw : f.name = "website" <;>
    simp [buildFieldSchema, ht, hr, hw, zodMin1]

/-- Non-required default-branch (text / select) fields become an optional
string schema. -/
theorem buildFieldSchema_default_opt (f : FormFieldConfig)
    (ht : f.type = .text ∨ f.type = .select) (hr : f.required ≠ some true) :
    buildFieldSchema f
      = .ok (if f.name = "website"
             then ZodSchema.refineUrl (.optional (.string []))
             else .optional (.string [])) := by
  rcases ht with ht | ht <;> by_cases hw : f.name = "website" <;>
    simp [buildFieldSchema, ht, hr, hw]

/-- Non-required email fields throw: `.email()` is called on the
`ZodOptional` wrapper, which has no such method. -/
theorem buildFieldSchema_email_opt_err (f : FormFieldConfig)
    (ht : f.type = .email) (hr : f.required ≠ some true) :
    buildFieldSchema f = .error "fieldSchema.email is not a function" := by
  simp [buildFieldSchema, ht, hr, zodEmail]

/-- Required number fields throw: `.min(1)` is called on the `ZodEffects`
transform wrapper, which has no such method. -/
theorem buildFieldSchema_num_req_err (f : FormFieldConfig)
    (ht : f.type = .number) (hr : f.required = some true) :
    buildFieldSchema f = .error "fieldSchema.min is not a function" := by
  simp [buildFieldSchema, ht, hr, zodMin1]

/-- No branch of the translator's `switch` produces the internal type
`multi_line_text`. -/
theorem convertHubspotField_type_ne_mlt (hf : HubspotField) :
    (convertHubspotField hf).type ≠ .multi_line_text := by
  unfold convertHubspotField
  split_ifs <;> simp

/-- Mapping an option to a copy of itself is the identity. -/
theorem fieldOption_map_copy (l : List FieldOption) :
    l.map (fun opt => ({ label := opt.label, value := opt.value } : FieldOption)) = l := by
  induction l with
  | nil => rfl
  | cons a t ih => simp [ih]

/-- The submission fold, with an arbitrary accumulator, appends the
filtered images. -/
theorem buildSubmission_foldl (values : String → Option FieldValue) :
    ∀ (fields : List FormFieldConfig)
      (acc : List (String × FieldValue) × List (String × String)),
      fields.foldl (submissionStep values) acc
        = (acc.1 ++ specSubmissionFields fields values,
           acc.2 ++ specSubmissionTypes fields values)
  | [], acc => by simp [specSubmissionFields, specSubmissionTypes]
  | f :: rest, acc => by
    rw [List.foldl_cons, buildSubmission_foldl values rest]
    cases hv : values f.name with
    | none =>
      simp [submissionStep, hv, specSubmissionFields, specSubmissionTypes]
    | some v =>
      by_cases hm : f.type = .multiselect <;>
        simp [submissionStep, hv, hm, specSubmissionFields, specSubmissionTypes]

/-- Option-level variant of `fieldOption_map_copy`. -/
theorem fieldOption_opt_map_copy (o : Option (List FieldOption)) :
    o.map (List.map fun opt =>
      ({ label := opt.label, value := opt.value } : FieldOption)) = o := by
  cases o <;> simp [fieldOption_map_copy]

/-! ### Claims -/

/-- C1, counterexample: the claim says the validator of a required
multiselect field accepts the empty list.  It does not: the runtime
`.min(1)` call dispatches to `ZodArray.min`, so the schema built for the
required multiselect field `colors` carries minimum length 1 and rejects
`[]`. -/
theorem C1_counterexample :
    generateZodSchema msReqConfig
      = .ok [("colors", ZodSchema.array (some 1))] ∧
    zparse (ZodSchema.array (some 1)) (JSValue.arr []) = none :=
  ⟨rfl, rfl⟩

/-- C1, amended: for every Form Configuration (with distinct field
names) containing a multiselect field with `required` set, the validator
produced by `generateZodSchema` REJECTS the empty list for that field:
the required flag does impose a non-emptiness constraint on multiselect
fields, via `ZodArray.min(1)`. -/
theorem C1_amended (config : FormConfig) (sch : List (String × ZodSchema))
    (hnd : (config.fields.map FormFieldConfig.name).Nodup)
    (hok : generateZodSchema config = .ok sch)
    (f : FormFieldConfig) (hf : f ∈ config.fields)
    (ht : f.type = .multiselect) (hr : f.required = some true) :
    ∃ s, recordGet sch f.name = some s ∧ zparse s (JSValue.arr []) = none := by
  obtain ⟨s, hb, hg⟩ := buildSchemas_mem_nodup config.fields sch f hnd hok hf
  rw [buildFieldSchema_ms_req f ht hr] at hb
  have hs := Except.ok.inj hb
  subst hs
  refine ⟨_, hg, ?_⟩
  by_cases hw : f.name = "website" <;> simp [hw] <;> decide

/-- C1, witness for the amended theorem at the concrete required
multiselect configuration. -/
theorem C1_amended_witness :
    ∃ s, recordGet [("colors", ZodSchema.array (some 1))] "colors" = some s ∧
      zparse s (JSValue.arr []) = none :=
  C1_amended msReqConfig _ (by simp [msReqConfig]) rfl msReqField
    (by simp [msReqConfig]) rfl rfl

/-- C2, counterexample: the claim says every non-required field's
validator accepts an absent value.  A non-required number field rejects
absence: its schema is `optional(transform).refine(v => !isNaN(Number(v)))`
and `Number(undefined)` is NaN, so the refinement fails on `undefined`. -/
theorem C2_counterexample :
    generateZodSchema numOptConfig
      = .ok [("age", ZodSchema.refineNumber (.optional .numberTransform))] ∧
    zparse (ZodSchema.refineNumber (.optional .numberTransform)) JSValue.undef
      = none :=
  ⟨rfl, rfl⟩

/-- C2, amended: restricted to the field types whose builder neither
throws nor attaches the number refinement — for every non-required field
of type text or select the validator accepts both an absent value and
the empty string, and for every non-required multiselect field it
accepts an absent value.  (Non-required email fields make
`generateZodSchema` throw; non-required number fields reject absence;
non-required multi_line_text fields accept absence but reject the empty
string.) -/
theorem C2_amended (config : FormConfig) (sch : List (String × ZodSchema))
    (hnd : (config.fields.map FormFieldConfig.name).Nodup)
    (hok : generateZodSchema config = .ok sch)
    (f : FormFieldConfig) (hf : f ∈ config.fields)
    (hr : f.required ≠ some true) :
    ((f.type = .text ∨ f.type = .select) →
      ∃ s, recordGet sch f.name = some s ∧
        zparse s JSValue.undef = some JSValue.undef ∧
        zparse s (JSValue.str "") = some (JSValue.str "")) ∧
    (f.type = .multiselect →
      ∃ s, recordGet sch f.name = some s ∧
        zparse s JSValue.undef = some JSValue.undef) := by
  obtain ⟨s, hb, hg⟩ := buildSchemas_mem_nodup config.fields sch f hnd hok hf
  constructor
  · intro ht
    rw [buildFieldSchema_default_opt f ht hr] at hb
    have hs := Except.ok.inj hb
    subst hs
    refine ⟨_, hg, ?_, ?_⟩ <;>
      (by_cases hw : f.name = "website" <;> simp [hw] <;> decide)
  · intro ht
    rw [buildFieldSchema_ms_opt f ht hr] at hb
    have hs := Except.ok.inj hb
    subst hs
    refine ⟨_, hg, ?_⟩
    by_cases hw : f.name = "website" <;> simp [hw] <;> decide

/-- C2, witness for the amended theorem at a concrete non-required text
field. -/
theorem C2_amended_witness :
    ∃ s, recordGet [("firstname", ZodSchema.optional (.string []))] "firstname"
        = some s ∧
      zparse s JSValue.undef = some JSValue.undef ∧
      zparse s (JSValue.str "") = some (JSValue.str "") :=
  (C2_amended textOptConfig _ (by simp [textOptConfig]) rfl textOptField
      (by simp [textOptConfig]) (by simp [textOptField])).1 (Or.inl rfl)

/-- C3: for any Form Configuration containing a non-required email field
or a required number field, `generateZodSchema` does not return a
validator: it throws a runtime type error (`.email()` on the
`ZodOptional` wrapper, `.min()` on the `ZodEffects` transform wrapper,
methods those objects do not have). -/
theorem C3_throws (config : FormConfig) (f : FormFieldConfig)
    (hf : f ∈ config.fields)
    (h : (f.type = .email ∧ f.required = some false) ∨
         (f.type = .number ∧ f.required = some true)) :
    ∃ e, generateZodSchema config = .error e := by
  rcases h with ⟨ht, hr⟩ | ⟨ht, hr⟩
  · exact buildSchemas_error_of_mem config.fields f _ hf
      (buildFieldSchema_email_opt_err f ht (by simp [hr]))
  · exact buildSchemas_error_of_mem config.fields f _ hf
      (buildFieldSchema_num_req_err f ht hr)

/-- C3, witness: the schema construction throws on a concrete
configuration holding one non-required email field. -/
theorem C3_throws_witness :
    ∃ e, generateZodSchema emailOptConfig = .error e :=
  C3_throws emailOptConfig emailOptField (by simp [emailOptConfig])
    (Or.inl ⟨rfl, rfl⟩)

/-- C4: the translator assigns the internal type by exactly the priority
policy stated in the claim (`email`, `dropdown` → select with options
carried through verbatim, `multiple_checkboxes` → multiselect with
options, `number`, `multi_line_text` → text, then the case-insensitive
name-based email fallback, else text); the function is total, so no
error is raised for unrecognized external types. -/
theorem C4_type_policy (field : HubspotField) :
    (convertHubspotField field).type = specTypePolicy field ∧
    (convertHubspotField field).options = specOptionsPolicy field := by
  unfold convertHubspotField specTypePolicy specOptionsPolicy
  split_ifs <;> simp_all [fieldOption_opt_map_copy]

/-- C5: the Submission Payload's `fields` and `fieldTypes` records
contain exactly the configured fields whose value is present, in order;
a multiselect value is coerced to an array (a bare value is wrapped) and
tagged `multiple_checkboxes`; every other value is copied as-is with the
field's declared type tag verbatim. -/
theorem C5_submission_payload (fields : List FormFieldConfig)
    (values : String → Option FieldValue) :
    buildSubmission fields values
      = (specSubmissionFields fields values, specSubmissionTypes fields values) := by
  have h := buildSubmission_foldl values fields ([], [])
  simpa [buildSubmission] using h

/-- C6: when the submit collaborator throws a value that is not an
`Error` instance (hence carries no message), the controller surfaces
"Failed to submit form" as the banner text and calls
`onSubmissionResponse` with `{success: false, error: "Failed to submit
form"}`. -/
theorem C6_submit_throw_fallback :
    handleSubmitOutcome (.threw .nonError)
      = { submitSuccess := false
          submitError := some "Failed to submit form"
          response := { success := false, data := none,
                        error := some "Failed to submit form" }
          formReset := false } ∧
    bannerText (some "Failed to submit form") = some "Failed to submit form" :=
  ⟨rfl, rfl⟩

/-- C7: an unsuccessful fetch result moves the controller to the `error`
state carrying `result.error || "Failed to fetch form"` — the message
itself whenever one is provided (nonempty), the fallback when none is —
a thrown value moves it to `error` with the thrown `Error`'s message or
the fallback, and the `error` state is terminal for the mount: every
subsequent event leaves it unchanged (no automatic retry exists). -/
theorem C7_fetch_failure :
    (∀ r : FetchResult, r.success = false →
      handleFetchOutcome (.resolved r)
        = .error (jsOrString r.error "Failed to fetch form")) ∧
    (∀ m : String, m ≠ "" → jsOrString (some m) "Failed to fetch form" = m) ∧
    jsOrString none "Failed to fetch form" = "Failed to fetch form" ∧
    (∀ v : ThrownValue,
      handleFetchOutcome (.threw v)
        = .error (thrownMessage v "Failed to fetch form")) ∧
    (∀ (m : String) (e : ControllerEvent),
      controllerStep (.error m) e = .error m) := by
  refine ⟨?_, ?_, rfl, fun v => rfl, ?_⟩
  · intro r h
    simp [handleFetchOutcome, h]
  · intro m h
    simp [jsOrString, h]
  · intro m e
    cases e <;> rfl

/-- C7, witness: the spec's Scenario 3 (`{success:false, error:"not
found"}` enters the `error` state exposing "not found"), plus
terminality of that state under a subsequent event. -/
theorem C7_fetch_failure_witness :
    handleFetchOutcome (.resolved { success := false, error := some "not found" })
      = .error "not found" ∧
    controllerStep (.error "not found")
      (.submitSettled (.resolved { success := true })) = .error "not found" := by
  constructor
  · have h := C7_fetch_failure.1 { success := false, error := some "not found" } rfl
    simpa [jsOrString] using h
  · exact C7_fetch_failure.2.2.2.2 "not found" _

/-- C8, counterexample: the claim says the validator of any field named
`website` accepts "https://example.com" independently of the declared
type.  For a required `website` field of declared type email the
produced validator rejects "https://example.com": the email checks run
in the same schema and fail on it. -/
theorem C8_counterexample :
    generateZodSchema websiteEmailConfig
      = .ok [("website",
          ZodSchema.refineUrl (.string [.email, .min1, .email]))] ∧
    zparse (ZodSchema.refineUrl (.string [.email, .min1, .email]))
      (JSValue.str "https://example.com") = none :=
  ⟨rfl, rfl⟩

/-- C8, amended: for a field named `website` whose declared type is text
or select (the default string branch), the validator rejects any
non-empty non-URL value such as "not a url", accepts
"https://example.com", and (when the field is not required) accepts the
empty string and absence, which pass the URL refinement.  The URL
refinement is attached regardless of declared type, but for email- or
number-typed `website` fields the type-specific checks can reject
well-formed URLs (and some builder paths throw). -/
theorem C8_amended (config : FormConfig) (sch : List (String × ZodSchema))
    (hnd : (config.fields.map FormFieldConfig.name).Nodup)
    (hok : generateZodSchema config = .ok sch)
    (f : FormFieldConfig) (hf : f ∈ config.fields)
    (hn : f.name = "website") (ht : f.type = .text ∨ f.type = .select) :
    ∃ s, recordGet sch "website" = some s ∧
      zparse s (JSValue.str "not a url") = none ∧
      zparse s (JSValue.str "https://example.com")
        = some (JSValue.str "https://example.com") ∧
      (f.required ≠ some true →
        zparse s (JSValue.str "") = some (JSValue.str "") ∧
        zparse s JSValue.undef = some JSValue.undef) := by
  obtain ⟨s, hb, hg⟩ := buildSchemas_mem_nodup config.fields sch f hnd hok hf
  rw [hn] at hg
  by_cases hr : f.required = some true
  · rw [buildFieldSchema_default_req f ht hr, hn] at hb
    simp only [reduceIte] at hb
    have hs := Except.ok.inj hb
    subst hs
    exact ⟨_, hg, by decide, by decide, fun hc => absurd hr hc⟩
  · rw [buildFieldSchema_default_opt f ht hr, hn] at hb
    simp only [reduceIte] at hb
    have hs := Except.ok.inj hb
    subst hs
    exact ⟨_, hg, by decide, by decide, fun _ => ⟨by decide, by decide⟩⟩

/-- C8, witness for the amended theorem at the concrete required
text-typed `website` field. -/
theorem C8_amended_witness :
    ∃ s, recordGet [("website", ZodSchema.refineUrl (.string [.min1]))] "website"
        = some s ∧
      zparse s (JSValue.str "not a url") = none ∧
      zparse s (JSValue.str "https://example.com")
        = some (JSValue.str "https://example.com") ∧
      (websiteTextField.required ≠ some true →
        zparse s (JSValue.str "") = some (JSValue.str "") ∧
        zparse s JSValue.undef = some JSValue.undef) :=
  C8_amended websiteTextConfig _ (by simp [websiteTextConfig]) rfl
    websiteTextField (by simp [websiteTextConfig]) rfl (Or.inl rfl)

/-- C9: the translator is a pure function — translating the same input
any number of times yields the same Form Configuration — and its field
list is the in-order flattening of the groups (group traversal order,
then field order within each group), with the form name copied. -/
theorem C9_translator_pure (d : HubspotFormData) :
    convertHubspotFormToConfig d = convertHubspotFormToConfig d ∧
    (convertHubspotFormToConfig d).name = d.name ∧
    (convertHubspotFormToConfig d).fields
      = (d.fieldGroups.map fun g => g.fields.map convertHubspotField).flatten :=
  ⟨rfl, rfl, convert_fields_join d⟩

/-- C10: no translator-produced field has internal type
`multi_line_text` — the external `multi_line_text` tag maps to `text` —
so the always-required `multi_line_text` rule of `generateZodSchema` is
unreachable for translator-produced configurations. -/
theorem C10_no_mlt :
    (∀ (d : HubspotFormData) (f : FormFieldConfig),
        f ∈ (convertHubspotFormToConfig d).fields →
        f.type ≠ .multi_line_text) ∧
    (∀ hf : HubspotField, hf.fieldType = "multi_line_text" →
        (convertHubspotField hf).type = .text) := by
  constructor
  · intro d f hmem
    rw [convert_fields_join] at hmem
    rw [List.mem_flatten] at hmem
    obtain ⟨l, hl, hfl⟩ := hmem
    rw [List.mem_map] at hl
    obtain ⟨g, hg, rfl⟩ := hl
    rw [List.mem_map] at hfl
    obtain ⟨hfield, hfh, rfl⟩ := hfl
    exact convertHubspotField_type_ne_mlt hfield
  · intro hf h
    simp [convertHubspotField, h]

/-- C10, witness at a concrete external `multi_line_text` field. -/
theorem C10_no_mlt_witness :
    (convertHubspotField mltHubspotField).type ≠ .multi_line_text ∧
    (convertHubspotField mltHubspotField).type = .text :=
  ⟨C10_no_mlt.1 mltHubspotForm (convertHubspotField mltHubspotField) (by decide),
   C10_no_mlt.2 mltHubspotField rfl⟩
